import Mathlib

/-!
Verification of the `sphinterpolate` wrapper
(`src/pygmt/src/sphinterpolate.py`).

The file under review is a thin adapter: it classifies the input table,
allocates a scoped temporary `.nc` file, opens a session, exposes the
table as a virtual input, invokes the external `sphinterpolate` module
once, and either materializes the resulting grid in memory (when the
caller did not set `outgrid`) or returns nothing, leaving the file at
the caller's path.  We embed that control flow shallowly: the
filesystem is an association list from paths to file contents, the
external module is a function parameter, and every resource action is
recorded in an event trace so that ordering and once-only properties
can be stated.

Helpers imported by the wrapper (`use_alias`, `kwargs_to_strings`,
`build_arg_string`, `data_kind`, `GMTTempFile`, `Session`,
`virtualfile_from_data`) are declared outside the reviewed source; the
definitions below that embed them are modelled from the specification
text and say so in their doc comments.
-/

namespace Sphinterpolate

/-- An option value as supplied by the caller: a scalar token or a
sequence of tokens (e.g. `region=[0,10,0,5]`). -/
inductive Value where
  | scalar : String → Value
  | sequence : List String → Value
deriving DecidableEq, Repr

/-- An `OptionSet`: keyword arguments as an ordered association list
from option keys to values, mirroring Python `**kwargs`. -/
abbrev OptionSet := List (String × Value)

/-- The allow-list of recognized long option names, from the
`use_alias` decoration `G="outgrid", I="increment", R="region",
V="verbose"`. -/
def allowList : List String := ["outgrid", "increment", "region", "verbose"]

/-- Translation of a recognized long option name to its single-letter
GMT flag, from the `use_alias` decoration. -/
def aliasShort : String → String
  | "outgrid" => "G"
  | "increment" => "I"
  | "region" => "R"
  | "verbose" => "V"
  | s => s

/-- The error taxonomy of the adapter. -/
inductive Err where
  | InvalidInputError
  | ExternalModuleError
  | IOError
deriving DecidableEq, Repr

/-- Modelled from the spec: `use_alias` is not under `src/`; per the
spec, "Keys are validated against a fixed allow-list" and "Unknown
keys are rejected before reaching this stage", failing with
`InvalidInputError`; recognized long names are translated to their
single-letter flags before the body runs. -/
def use_alias (kwargs : OptionSet) : Except Err OptionSet :=
  if kwargs.all (fun kv => kv.1 ∈ allowList) then
    .ok (kwargs.map (fun kv => (aliasShort kv.1, kv.2)))
  else
    .error .InvalidInputError

/-- Serialization of one option value under key `k`: sequence values
of the `I` and `R` options collapse to a single `"/"`-joined scalar
token, everything else passes through unchanged. -/
def stringifyVal (k : String) (v : Value) : Value :=
  if k = "I" ∨ k = "R" then
    match v with
    | .sequence xs => .scalar (String.intercalate "/" xs)
    | v => v
  else v

/-- Modelled from the spec: `kwargs_to_strings(I="sequence",
R="sequence")` is not under `src/`; per the spec, "sequence-valued
options (e.g. spacing, region) are serialized to a canonical delimited
string form", joined with `"/"` into a single token per option, while
scalar options pass through. -/
def kwargs_to_strings (kwargs : OptionSet) : OptionSet :=
  kwargs.map fun kv => (kv.1, stringifyVal kv.1 kv.2)

/-- The single token emitted for an option value (sequences have been
collapsed to scalars by `kwargs_to_strings` before this stage). -/
def valueToken : Value → String
  | .scalar s => s
  | .sequence xs => String.intercalate "/" xs

/-- Modelled from the spec: `build_arg_string` is not under `src/`;
per the spec it is a "deterministic, order-stable command-argument
string" builder, a pure function of the `OptionSet`.  Keys are emitted
in the fixed sorted order `G < I < R < V` of the allow-list's flags,
each as `-<flag><token>`. -/
def build_arg_string (kwargs : OptionSet) : String :=
  String.intercalate " "
    ((["G", "I", "R", "V"]).filterMap fun k =>
      (kwargs.lookup k).map fun v => "-" ++ k ++ valueToken v)

/-- An interpolated grid: the in-memory labeled 2-D array produced by
the external module (shape plus values; metadata elided). -/
structure Grid where
  rows : Nat
  cols : Nat
  values : List Int
deriving DecidableEq, Repr

/-- The `table` argument: in-memory tabular vector data
(lon, lat, value rows), a reference to an external data source, or
something that classifies as neither. -/
inductive Table where
  | vectors : List (Int × Int × Int) → Table
  | fileRef : String → Table
  | unclassifiable : Table
deriving DecidableEq, Repr

/-- The data kind of a classifiable table. -/
inductive DataKind where
  | vectors
  | file
deriving DecidableEq, Repr

/-- Modelled from the spec: `data_kind` and the `check_kind="vector"`
validation of `virtualfile_from_data` are not under `src/`; per the
spec, "`table` must classify as tabular vector data (three numeric
columns: lon, lat, value) or a valid external reference;
unclassifiable input fails with an `InvalidInputError`", and the
classification happens "once at entry". -/
def data_kind : Table → Except Err DataKind
  | .vectors _ => .ok .vectors
  | .fileRef _ => .ok .file
  | .unclassifiable => .error .InvalidInputError

/-- Contents of a file on disk: the empty file a fresh
`GMTTempFile` creates, or a written netCDF grid. -/
inductive FileContent where
  | empty
  | grid : Grid → FileContent
deriving DecidableEq, Repr

/-- The filesystem: an association list from paths to contents. -/
abbrev FS := List (String × FileContent)

/-- Whether a file exists at `p`. -/
def fileExists (p : String) (fs : FS) : Bool :=
  fs.any (fun e => e.1 = p)

/-- The content stored at `p`, if any. -/
def readFile (p : String) (fs : FS) : Option FileContent :=
  fs.lookup p

/-- Remove the file at `p` (all entries for that path). -/
def deleteFile (p : String) (fs : FS) : FS :=
  fs.filter (fun e => ¬ e.1 = p)

/-- Create or overwrite the file at `p` with content `c`. -/
def writeFile (p : String) (c : FileContent) (fs : FS) : FS :=
  (p, c) :: deleteFile p fs

/-- Observable resource events of one call, in order of occurrence:
classification, temp-file creation, session open, virtual-input open
(one constructor per ingestion path), the external module invocation,
the scoped releases, and temp-file deletion. -/
inductive Event where
  | classify
  | tempCreate
  | sessionOpen
  | vfOpenVectors
  | vfOpenFile
  | moduleCall
  | vfClose
  | sessionClose
  | tempDelete
deriving DecidableEq, Repr

/-- The externally observable outcome of one call: the returned value
(or error), the final filesystem, and the event trace. -/
structure CallResult where
  result : Except Err (Option Grid)
  fs : FS
  trace : List Event
deriving Repr

/-- The external module abstracted as a function from the input table
and the final option set (including `G`) to the grid it computes, or
`none` when it signals failure.  Modelled from the spec: `Session` and
`call_module` are not under `src/`; the call is "a single synchronous
external invocation" whose failure "propagates as a fatal error". -/
abbrev Module := Table → OptionSet → Option Grid

/-- The virtual-input open event selected by the data kind: in-memory
vectors are bridged through a virtual file, a file reference is passed
through directly (the `dummy_context` path). -/
def vfOpenEvent : DataKind → Event
  | .vectors => .vfOpenVectors
  | .file => .vfOpenFile

/-- Shallow embedding of the body of `sphinterpolate` (the code under
`src/`), after the decorators have run.  Follows the source line by
line: classify the table; enter `GMTTempFile` (which creates the temp
file at `tmpname`); enter `Session`; open the virtual input; default
`G` to the temp name when unset; build the argument string; call the
module once; release the virtual input and the session; branch on
`outgrid == tmpfile.name` to load the grid into memory or return
nothing; delete the temp file on scope exit (also during unwind). -/
def sphinterpolate_body (module : Module) (tmpname : String)
    (table : Table) (kwargs : OptionSet) (fs : FS) : CallResult :=
  match data_kind table with
  | .error e => { result := .error e, fs := fs, trace := [.classify] }
  | .ok kind =>
    let fs1 : FS := writeFile tmpname .empty fs
    let pre : List Event := [.classify, .tempCreate, .sessionOpen, vfOpenEvent kind]
    let kwargs' : OptionSet :=
      if (kwargs.lookup "G").isSome then kwargs else kwargs ++ [("G", .scalar tmpname)]
    let outgrid : String :=
      match kwargs'.lookup "G" with
      | some (.scalar s) => s
      | some (.sequence xs) => String.intercalate "/" xs
      | none => tmpname
    match module table kwargs' with
    | none =>
      { result := .error .ExternalModuleError
        fs := deleteFile tmpname fs1
        trace := pre ++ [.moduleCall, .vfClose, .sessionClose, .tempDelete] }
    | some g =>
      let fs2 : FS := writeFile outgrid (.grid g) fs1
      let res : Option Grid := if outgrid = tmpname then some g else none
      { result := .ok res
        fs := deleteFile tmpname fs2
        trace := pre ++ [.moduleCall, .vfClose, .sessionClose, .tempDelete] }

/-- The full public operation: the `use_alias` and `kwargs_to_strings`
decorators run first (rejecting unknown keys with no effect on the
world), then the body. -/
def sphinterpolate (module : Module) (tmpname : String)
    (table : Table) (kwargs : OptionSet) (fs : FS) : CallResult :=
  match use_alias kwargs with
  | .error e => { result := .error e, fs := fs, trace := [] }
  | .ok short => sphinterpolate_body module tmpname table (kwargs_to_strings short) fs

/-- The option set the body actually receives once both decorators
have run on a valid raw `kwargs`: aliases translated, sequences
serialized. -/
def decoratedOptions (kwargs : OptionSet) : OptionSet :=
  kwargs_to_strings (kwargs.map fun kv => (aliasShort kv.1, kv.2))

/-- The option set handed to the external module: the decorated
options, with `G` defaulted to the temp-file name when unset (the
`kwargs.update({"G": tmpfile.name})` line of the source). -/
def finalOptions (tmpname : String) (kwargs : OptionSet) : OptionSet :=
  if ((decoratedOptions kwargs).lookup "G").isSome then decoratedOptions kwargs
  else decoratedOptions kwargs ++ [("G", Value.scalar tmpname)]

/-- A stand-in deterministic external module used to instantiate the
theorems below on concrete inputs. -/
def sampleGrid : Grid := ⟨1, 1, [5]⟩

/-- A module that always succeeds with `sampleGrid`. -/
def sampleModule : Module := fun _ _ => some sampleGrid

/-- A module that always signals failure. -/
def failModule : Module := fun _ _ => none

/-- A small concrete tabular input (lon, lat, value rows). -/
def sampleTable : Table := Table.vectors [(0, 0, 1), (1, 1, 2)]

/-! ### Helper lemmas about the filesystem and option lookups -/

theorem stringifyVal_G (v : Value) : stringifyVal "G" v = v := by
  simp [stringifyVal]

theorem lookup_cons_ne {β : Type} {k k' : String} (h : ¬ k = k') (b : β)
    (es : List (String × β)) :
    ((k', b) :: es).lookup k = es.lookup k := by
  have hb : (k == k') = false := beq_eq_false_iff_ne.mpr h
  simp [List.lookup_cons, hb]

theorem fileExists_deleteFile (p : String) (fs : FS) :
    fileExists p (deleteFile p fs) = false := by
  induction fs with
  | nil => rfl
  | cons e tl ih =>
    by_cases h : e.1 = p
    · simp only [deleteFile, List.filter, h] at ih ⊢
      simpa [h] using ih
    · simp only [deleteFile, List.filter, fileExists, h] at ih ⊢
      simp [h, ih]

theorem readFile_writeFile_self (p : String) (c : FileContent) (fs : FS) :
    readFile p (writeFile p c fs) = some c := by
  simp [readFile, writeFile]

theorem readFile_deleteFile_ne (q p : String) (fs : FS) (h : ¬ q = p) :
    readFile q (deleteFile p fs) = readFile q fs := by
  induction fs with
  | nil => rfl
  | cons e tl ih =>
    by_cases he : e.1 = p
    · have hq : ¬ q = e.1 := by
        intro hc; exact h (hc.trans he)
      calc readFile q (deleteFile p (e :: tl))
          = readFile q (deleteFile p tl) := by
            simp [deleteFile, List.filter, he]
        _ = readFile q tl := ih
        _ = readFile q (e :: tl) := by
            obtain ⟨k, c⟩ := e
            exact (lookup_cons_ne hq c tl).symm
    · obtain ⟨k, c⟩ := e
      by_cases hq : q = k
      · subst hq
        simp [deleteFile, List.filter, readFile, he]
      · have step : deleteFile p ((k, c) :: tl) = (k, c) :: deleteFile p tl := by
          simp [deleteFile, List.filter, he]
        rw [step, readFile, lookup_cons_ne hq c (deleteFile p tl),
          readFile, lookup_cons_ne hq c tl]
        exact ih

/-- After both decorators, looking up the short flag `G` finds exactly
the value the caller supplied for `outgrid` (validated keys only). -/
theorem lookup_G_decorated (kwargs : OptionSet)
    (hall : kwargs.all (fun kv => kv.1 ∈ allowList) = true) :
    (decoratedOptions kwargs).lookup "G" = kwargs.lookup "outgrid" := by
  induction kwargs with
  | nil => rfl
  | cons kv tl ih =>
    obtain ⟨k, v⟩ := kv
    simp only [List.all_cons, Bool.and_eq_true] at hall
    obtain ⟨h1, h2⟩ := hall
    have hk : k ∈ allowList := by simpa using h1
    have hstep : decoratedOptions ((k, v) :: tl)
        = (aliasShort k, stringifyVal (aliasShort k) v) :: decoratedOptions tl := rfl
    simp only [allowList, List.mem_cons, List.not_mem_nil, or_false] at hk
    rcases hk with rfl | rfl | rfl | rfl
    · rw [hstep]
      show (("G", stringifyVal "G" v) :: decoratedOptions tl).lookup "G" = _
      rw [stringifyVal_G, List.lookup_cons_self, List.lookup_cons_self]
    · rw [hstep]
      show (("I", stringifyVal "I" v) :: decoratedOptions tl).lookup "G" = _
      rw [lookup_cons_ne (by decide) _ _, lookup_cons_ne (by decide) _ _]
      exact ih h2
    · rw [hstep]
      show (("R", stringifyVal "R" v) :: decoratedOptions tl).lookup "G" = _
      rw [lookup_cons_ne (by decide) _ _, lookup_cons_ne (by decide) _ _]
      exact ih h2
    · rw [hstep]
      show (("V", stringifyVal "V" v) :: decoratedOptions tl).lookup "G" = _
      rw [lookup_cons_ne (by decide) _ _, lookup_cons_ne (by decide) _ _]
      exact ih h2

theorem finalOptions_no_outgrid (tmpname : String) (kwargs : OptionSet)
    (hkeys : kwargs.all (fun kv => kv.1 ∈ allowList) = true)
    (hout : kwargs.lookup "outgrid" = none) :
    finalOptions tmpname kwargs
      = decoratedOptions kwargs ++ [("G", Value.scalar tmpname)] := by
  have hG : (decoratedOptions kwargs).lookup "G" = none :=
    (lookup_G_decorated kwargs hkeys).trans hout
  simp [finalOptions, hG]

theorem finalOptions_with_outgrid (tmpname : String) (kwargs : OptionSet)
    (v : Value)
    (hkeys : kwargs.all (fun kv => kv.1 ∈ allowList) = true)
    (hout : kwargs.lookup "outgrid" = some v) :
    finalOptions tmpname kwargs = decoratedOptions kwargs := by
  have hG : (decoratedOptions kwargs).lookup "G" = some v :=
    (lookup_G_decorated kwargs hkeys).trans hout
  simp [finalOptions, hG]

/-- Characterization of a successful run without a caller-supplied
`outgrid`: the body defaults `G` to the temp name, the module writes
the grid to the temp path, the grid is materialized, and the temp file
is deleted on scope exit. -/
theorem run_no_outgrid (module : Module) (tmpname : String) (table : Table)
    (kind : DataKind) (kwargs : OptionSet) (fs : FS) (g : Grid)
    (hkeys : kwargs.all (fun kv => kv.1 ∈ allowList) = true)
    (hkind : data_kind table = .ok kind)
    (hout : kwargs.lookup "outgrid" = none)
    (hmod : module table (finalOptions tmpname kwargs) = some g) :
    sphinterpolate module tmpname table kwargs fs =
      { result := .ok (some g)
        fs := deleteFile tmpname
          (writeFile tmpname (.grid g) (writeFile tmpname .empty fs))
        trace := [.classify, .tempCreate, .sessionOpen, vfOpenEvent kind,
          .moduleCall, .vfClose, .sessionClose, .tempDelete] } := by
  have hG : (decoratedOptions kwargs).lookup "G" = none :=
    (lookup_G_decorated kwargs hkeys).trans hout
  rw [finalOptions_no_outgrid tmpname kwargs hkeys hout] at hmod
  have hlookup : (decoratedOptions kwargs ++ [("G", Value.scalar tmpname)]).lookup "G"
      = some (Value.scalar tmpname) := by
    rw [List.lookup_append, hG]
    rfl
  simp only [sphinterpolate, use_alias, hkeys, if_true]
  simp only [sphinterpolate_body, hkind]
  simp only [decoratedOptions] at hG hmod hlookup
  simp only [hG, Option.isSome_none, Bool.false_eq_true, if_false, hlookup, hmod,
    vfOpenEvent]
  simp

/-- Characterization of a successful run with a caller-supplied scalar
`outgrid P`: no `G` defaulting happens, the module writes the grid to
`P`, the return-type branch compares `P` with the temp name, and the
temp file is deleted on scope exit. -/
theorem run_with_outgrid (module : Module) (tmpname : String) (table : Table)
    (kwargs : OptionSet) (fs : FS) (g : Grid) (kind : DataKind) (P : String)
    (hkeys : kwargs.all (fun kv => kv.1 ∈ allowList) = true)
    (hkind : data_kind table = .ok kind)
    (hout : kwargs.lookup "outgrid" = some (Value.scalar P))
    (hmod : module table (finalOptions tmpname kwargs) = some g) :
    sphinterpolate module tmpname table kwargs fs =
      { result := .ok (if P = tmpname then some g else none)
        fs := deleteFile tmpname (writeFile P (.grid g) (writeFile tmpname .empty fs))
        trace := [.classify, .tempCreate, .sessionOpen, vfOpenEvent kind,
          .moduleCall, .vfClose, .sessionClose, .tempDelete] } := by
  have hG : (decoratedOptions kwargs).lookup "G" = some (Value.scalar P) :=
    (lookup_G_decorated kwargs hkeys).trans hout
  rw [finalOptions_with_outgrid tmpname kwargs _ hkeys hout] at hmod
  simp only [sphinterpolate, use_alias, hkeys, if_true]
  simp only [sphinterpolate_body, hkind]
  simp only [decoratedOptions] at hG hmod
  simp only [hG, Option.isSome_some, if_true, hmod]
  simp

/-- Characterization of a run in which the external module signals
failure: the error propagates and the temp file is still deleted
during unwind. -/
theorem run_module_failure (module : Module) (tmpname : String) (table : Table)
    (kwargs : OptionSet) (fs : FS) (kind : DataKind)
    (hkeys : kwargs.all (fun kv => kv.1 ∈ allowList) = true)
    (hkind : data_kind table = .ok kind)
    (hmod : module table (finalOptions tmpname kwargs) = none) :
    sphinterpolate module tmpname table kwargs fs =
      { result := .error .ExternalModuleError
        fs := deleteFile tmpname (writeFile tmpname .empty fs)
        trace := [.classify, .tempCreate, .sessionOpen, vfOpenEvent kind,
          .moduleCall, .vfClose, .sessionClose, .tempDelete] } := by
  simp only [finalOptions, decoratedOptions] at hmod
  simp only [sphinterpolate, use_alias, hkeys, if_true]
  simp only [sphinterpolate_body, hkind]
  simp only [hmod]
  simp

/-- Lookup is stable under permutation of an association list whose
keys are distinct. -/
theorem lookup_perm {β : Type} (k : String) {l l' : List (String × β)}
    (h : l.Perm l') (nd : (l.map Prod.fst).Nodup) :
    l.lookup k = l'.lookup k := by
  induction h with
  | nil => rfl
  | cons x h ih =>
    obtain ⟨a, b⟩ := x
    simp only [List.map_cons, List.nodup_cons] at nd
    by_cases hk : k = a
    · subst hk
      rw [List.lookup_cons_self, List.lookup_cons_self]
    · rw [lookup_cons_ne hk b _, lookup_cons_ne hk b _]
      exact ih nd.2
  | swap x y l =>
    obtain ⟨a, b⟩ := x
    obtain ⟨c, d⟩ := y
    have hne : ¬ c = a := by
      simp only [List.map_cons, List.nodup_cons, List.mem_cons] at nd
      intro hc
      exact nd.1 (Or.inl hc)
    by_cases hkc : k = c
    · subst hkc
      rw [List.lookup_cons_self, lookup_cons_ne hne b _, List.lookup_cons_self]
    · by_cases hka : k = a
      · subst hka
        rw [lookup_cons_ne hkc d _, List.lookup_cons_self, List.lookup_cons_self]
      · rw [lookup_cons_ne hkc d _, lookup_cons_ne hka b _,
          lookup_cons_ne hka b _, lookup_cons_ne hkc d _]
  | trans h1 h2 ih1 ih2 =>
    have nd' := ((h1.map Prod.fst).nodup_iff).mp nd
    exact (ih1 nd).trans (ih2 nd')

/-- Trace of any run that passes validation and classification: the
scoped-resource events occur in this order, independent of the
module's outcome and of the return-type branch. -/
theorem run_trace (module : Module) (tmpname : String) (table : Table)
    (kwargs : OptionSet) (fs : FS) (kind : DataKind)
    (hkeys : kwargs.all (fun kv => kv.1 ∈ allowList) = true)
    (hkind : data_kind table = .ok kind) :
    (sphinterpolate module tmpname table kwargs fs).trace
      = [.classify, .tempCreate, .sessionOpen, vfOpenEvent kind,
         .moduleCall, .vfClose, .sessionClose, .tempDelete] := by
  simp only [sphinterpolate, use_alias, hkeys, if_true]
  simp only [sphinterpolate_body, hkind]
  split <;> simp

/-! ### Claim theorems -/

/-- Claim C1 (amended): for every successful call on tabular input,
exactly one of the two outcomes holds provided the caller-supplied
`outgrid` path differs from the auto-generated temp path: if `outgrid`
is unset, an in-memory grid is returned and the temp file does not
remain; if `outgrid` is set to `P ≠ tmpname`, the call returns none
and a grid file exists at `P`.  (When `P` equals the generated temp
name the code instead returns a grid and deletes the file, so the
claim needs the `¬ P = tmpname` proviso.) -/
theorem sphinterpolate_outcome_exclusive (module : Module) (tmpname : String)
    (rows : List (Int × Int × Int)) (kwargs : OptionSet) (fs : FS)
    (g : Grid) (P : String)
    (hkeys : kwargs.all (fun kv => kv.1 ∈ allowList) = true)
    (hmod : module (Table.vectors rows) (finalOptions tmpname kwargs) = some g) :
    (kwargs.lookup "outgrid" = none →
      (sphinterpolate module tmpname (Table.vectors rows) kwargs fs).result
        = .ok (some g) ∧
      fileExists tmpname
        (sphinterpolate module tmpname (Table.vectors rows) kwargs fs).fs = false) ∧
    (kwargs.lookup "outgrid" = some (Value.scalar P) → ¬ P = tmpname →
      (sphinterpolate module tmpname (Table.vectors rows) kwargs fs).result
        = .ok none ∧
      readFile P (sphinterpolate module tmpname (Table.vectors rows) kwargs fs).fs
        = some (.grid g)) := by
  constructor
  · intro hout
    rw [run_no_outgrid module tmpname (Table.vectors rows) .vectors kwargs fs g
      hkeys rfl hout hmod]
    exact ⟨rfl, fileExists_deleteFile _ _⟩
  · intro hout hne
    rw [run_with_outgrid module tmpname (Table.vectors rows) kwargs fs g .vectors
      P hkeys rfl hout hmod]
    refine ⟨by simp [hne], ?_⟩
    rw [readFile_deleteFile_ne P tmpname _ hne]
    exact readFile_writeFile_self P _ _

/-- Witness for claim C1's theorem at a concrete call with
`outgrid = "out.nc"`. -/
theorem sphinterpolate_outcome_exclusive_witness :
    (sphinterpolate sampleModule "tmp.nc" (Table.vectors [(0, 0, 1), (1, 1, 2)])
        [("outgrid", Value.scalar "out.nc")] []).result = .ok none ∧
    readFile "out.nc"
      (sphinterpolate sampleModule "tmp.nc" (Table.vectors [(0, 0, 1), (1, 1, 2)])
        [("outgrid", Value.scalar "out.nc")] []).fs
      = some (.grid sampleGrid) :=
  (sphinterpolate_outcome_exclusive sampleModule "tmp.nc" [(0, 0, 1), (1, 1, 2)]
    [("outgrid", Value.scalar "out.nc")] [] sampleGrid "out.nc"
    (by decide) rfl).2 rfl (by decide)

/-- Counterexample to claim C1 as stated: when the caller's `outgrid`
happens to equal the generated temp path, the call does not return
none with the file on disk — it returns an in-memory grid and the
file is deleted. -/
theorem sphinterpolate_outcome_exclusive_counterexample :
    ¬ ((sphinterpolate sampleModule "tmp.nc" (Table.vectors [(0, 0, 1), (1, 1, 2)])
        [("outgrid", Value.scalar "tmp.nc")] []).result = .ok none ∧
      fileExists "tmp.nc"
        (sphinterpolate sampleModule "tmp.nc" (Table.vectors [(0, 0, 1), (1, 1, 2)])
          [("outgrid", Value.scalar "tmp.nc")] []).fs = true) :=
  fun h => Option.noConfusion (Except.ok.inj h.1)

/-- Claim C2: for every valid tabular input called without `outgrid`,
`sphinterpolate` returns a non-none grid, materialized in memory (the
returned value is a pure `Grid`, independent of the filesystem), and
no temporary file remains on disk after the call returns. -/
theorem sphinterpolate_no_outgrid_in_memory (module : Module) (tmpname : String)
    (rows : List (Int × Int × Int)) (kwargs : OptionSet) (fs : FS) (g : Grid)
    (hkeys : kwargs.all (fun kv => kv.1 ∈ allowList) = true)
    (hout : kwargs.lookup "outgrid" = none)
    (hmod : module (Table.vectors rows) (finalOptions tmpname kwargs) = some g) :
    (sphinterpolate module tmpname (Table.vectors rows) kwargs fs).result
      = .ok (some g) ∧
    fileExists tmpname
      (sphinterpolate module tmpname (Table.vectors rows) kwargs fs).fs = false := by
  rw [run_no_outgrid module tmpname (Table.vectors rows) .vectors kwargs fs g
    hkeys rfl hout hmod]
  exact ⟨rfl, fileExists_deleteFile _ _⟩

/-- Witness for claim C2's theorem at a concrete tabular call without
`outgrid`. -/
theorem sphinterpolate_no_outgrid_in_memory_witness :
    (sphinterpolate sampleModule "tmp.nc" (Table.vectors [(0, 0, 1)])
        [("region", Value.sequence ["0", "10", "0", "5"])] []).result
      = .ok (some sampleGrid) ∧
    fileExists "tmp.nc"
      (sphinterpolate sampleModule "tmp.nc" (Table.vectors [(0, 0, 1)])
        [("region", Value.sequence ["0", "10", "0", "5"])] []).fs = false :=
  sphinterpolate_no_outgrid_in_memory sampleModule "tmp.nc" [(0, 0, 1)]
    [("region", Value.sequence ["0", "10", "0", "5"])] [] sampleGrid
    (by decide) rfl rfl

/-- Claim C3 (amended): even when the caller supplies an explicit
`outgrid`, a temporary artifact is still allocated (the `with
GMTTempFile` line is unconditional); it is not used as the output and
is removed on scope exit. -/
theorem temp_allocated_even_with_outgrid (module : Module) (tmpname : String)
    (table : Table) (kwargs : OptionSet) (fs : FS) (g : Grid)
    (kind : DataKind) (P : String)
    (hkeys : kwargs.all (fun kv => kv.1 ∈ allowList) = true)
    (hkind : data_kind table = .ok kind)
    (hout : kwargs.lookup "outgrid" = some (Value.scalar P))
    (hmod : module table (finalOptions tmpname kwargs) = some g) :
    Event.tempCreate ∈ (sphinterpolate module tmpname table kwargs fs).trace ∧
    Event.tempDelete ∈ (sphinterpolate module tmpname table kwargs fs).trace ∧
    fileExists tmpname (sphinterpolate module tmpname table kwargs fs).fs = false := by
  rw [run_with_outgrid module tmpname table kwargs fs g kind P hkeys hkind hout hmod]
  exact ⟨by simp, by simp, fileExists_deleteFile _ _⟩

/-- Witness for claim C3's amended theorem at a concrete call with
`outgrid = "out.nc"`. -/
theorem temp_allocated_even_with_outgrid_witness :
    Event.tempCreate ∈ (sphinterpolate sampleModule "tmp.nc" sampleTable
      [("outgrid", Value.scalar "out.nc")] []).trace ∧
    Event.tempDelete ∈ (sphinterpolate sampleModule "tmp.nc" sampleTable
      [("outgrid", Value.scalar "out.nc")] []).trace ∧
    fileExists "tmp.nc" (sphinterpolate sampleModule "tmp.nc" sampleTable
      [("outgrid", Value.scalar "out.nc")] []).fs = false :=
  temp_allocated_even_with_outgrid sampleModule "tmp.nc" sampleTable
    [("outgrid", Value.scalar "out.nc")] [] sampleGrid .vectors "out.nc"
    (by decide) rfl rfl rfl

/-- Counterexample to claim C3 as stated: with the caller's `outgrid`
set, temp-file creation still happens (the creation event is in the
trace), so it is not skipped. -/
theorem temp_allocated_even_with_outgrid_counterexample :
    Event.tempCreate ∈ (sphinterpolate sampleModule "tmp.nc" sampleTable
      [("outgrid", Value.scalar "out.nc")] []).trace := by
  decide

/-- Claim C4: if the external module signals failure, the call fails
with `ExternalModuleError`, the allocated temporary file is still
removed during unwind (deletion event in the trace, file gone), and
no grid is returned. -/
theorem module_failure_cleanup (module : Module) (tmpname : String)
    (table : Table) (kwargs : OptionSet) (fs : FS) (kind : DataKind)
    (hkeys : kwargs.all (fun kv => kv.1 ∈ allowList) = true)
    (hkind : data_kind table = .ok kind)
    (hmod : module table (finalOptions tmpname kwargs) = none) :
    (sphinterpolate module tmpname table kwargs fs).result
      = .error .ExternalModuleError ∧
    fileExists tmpname (sphinterpolate module tmpname table kwargs fs).fs = false ∧
    Event.tempDelete ∈ (sphinterpolate module tmpname table kwargs fs).trace := by
  rw [run_module_failure module tmpname table kwargs fs kind hkeys hkind hmod]
  exact ⟨rfl, fileExists_deleteFile _ _, by simp⟩

/-- Witness for claim C4's theorem with a concrete always-failing
module. -/
theorem module_failure_cleanup_witness :
    (sphinterpolate failModule "tmp.nc" sampleTable [] []).result
      = .error .ExternalModuleError ∧
    fileExists "tmp.nc" (sphinterpolate failModule "tmp.nc" sampleTable [] []).fs
      = false ∧
    Event.tempDelete ∈ (sphinterpolate failModule "tmp.nc" sampleTable [] []).trace :=
  module_failure_cleanup failModule "tmp.nc" sampleTable [] [] .vectors
    (by decide) rfl rfl

/-- Claim C5: an `OptionSet` containing a key outside the allow-list
`{outgrid, increment, region, verbose}` makes the call fail with
`InvalidInputError` before the external module is invoked (no module
event in the trace, filesystem untouched). -/
theorem unknown_key_rejected (module : Module) (tmpname : String)
    (table : Table) (kwargs : OptionSet) (fs : FS) (k : String) (v : Value)
    (hmem : (k, v) ∈ kwargs) (hbad : ¬ k ∈ allowList) :
    (sphinterpolate module tmpname table kwargs fs).result
      = .error .InvalidInputError ∧
    ¬ Event.moduleCall ∈ (sphinterpolate module tmpname table kwargs fs).trace ∧
    (sphinterpolate module tmpname table kwargs fs).fs = fs := by
  have hall : kwargs.all (fun kv => kv.1 ∈ allowList) = false := by
    rw [List.all_eq_false]
    exact ⟨(k, v), hmem, by simpa using hbad⟩
  simp [sphinterpolate, use_alias, hall]

/-- Witness for claim C5's theorem at a concrete call with the
unrecognized key `frobnicate`. -/
theorem unknown_key_rejected_witness :
    (sphinterpolate sampleModule "tmp.nc" sampleTable
        [("frobnicate", Value.scalar "x")] []).result = .error .InvalidInputError ∧
    ¬ Event.moduleCall ∈ (sphinterpolate sampleModule "tmp.nc" sampleTable
        [("frobnicate", Value.scalar "x")] []).trace ∧
    (sphinterpolate sampleModule "tmp.nc" sampleTable
        [("frobnicate", Value.scalar "x")] []).fs = [] :=
  unknown_key_rejected sampleModule "tmp.nc" sampleTable
    [("frobnicate", Value.scalar "x")] [] "frobnicate" (Value.scalar "x")
    (by simp) (by decide)

/-- Claim C6: a `table` that classifies as neither tabular vector data
nor an external reference makes the call fail with
`InvalidInputError`, before the temp artifact is allocated, the
session is opened, or the external module is invoked. -/
theorem invalid_table_rejected (module : Module) (tmpname : String)
    (table : Table) (kwargs : OptionSet) (fs : FS)
    (hkeys : kwargs.all (fun kv => kv.1 ∈ allowList) = true)
    (htab : data_kind table = .error .InvalidInputError) :
    (sphinterpolate module tmpname table kwargs fs).result
      = .error .InvalidInputError ∧
    ¬ Event.tempCreate ∈ (sphinterpolate module tmpname table kwargs fs).trace ∧
    ¬ Event.sessionOpen ∈ (sphinterpolate module tmpname table kwargs fs).trace ∧
    ¬ Event.moduleCall ∈ (sphinterpolate module tmpname table kwargs fs).trace ∧
    (sphinterpolate module tmpname table kwargs fs).fs = fs := by
  simp only [sphinterpolate, use_alias, hkeys, if_true]
  simp only [sphinterpolate_body, htab]
  simp

/-- Witness for claim C6's theorem at a concrete call with an
unclassifiable table. -/
theorem invalid_table_rejected_witness :
    (sphinterpolate sampleModule "tmp.nc" Table.unclassifiable
        [("verbose", Value.scalar "d")] []).result = .error .InvalidInputError ∧
    ¬ Event.tempCreate ∈ (sphinterpolate sampleModule "tmp.nc" Table.unclassifiable
        [("verbose", Value.scalar "d")] []).trace ∧
    ¬ Event.sessionOpen ∈ (sphinterpolate sampleModule "tmp.nc" Table.unclassifiable
        [("verbose", Value.scalar "d")] []).trace ∧
    ¬ Event.moduleCall ∈ (sphinterpolate sampleModule "tmp.nc" Table.unclassifiable
        [("verbose", Value.scalar "d")] []).trace ∧
    (sphinterpolate sampleModule "tmp.nc" Table.unclassifiable
        [("verbose", Value.scalar "d")] []).fs = [] :=
  invalid_table_rejected sampleModule "tmp.nc" Table.unclassifiable
    [("verbose", Value.scalar "d")] [] (by decide) rfl

/-- Claim C7: sequence-valued options serialize to one `"/"`-joined
token each (`region=[0,10,0,5]` to `"0/10/0/5"`, `increment=[1,1]` to
`"1/1"`), scalar options pass through unchanged, and the built
argument string is a pure, order-stable function of the `OptionSet`
(invariant under permutation of distinct keys). -/
theorem option_serialization :
    (decoratedOptions [("region", Value.sequence ["0", "10", "0", "5"])]
       = [("R", Value.scalar "0/10/0/5")]) ∧
    (decoratedOptions [("increment", Value.sequence ["1", "1"])]
       = [("I", Value.scalar "1/1")]) ∧
    (∀ k s, stringifyVal k (Value.scalar s) = Value.scalar s) ∧
    (∀ l l' : OptionSet, l.Perm l' → (l.map Prod.fst).Nodup →
      build_arg_string l = build_arg_string l') := by
  refine ⟨rfl, rfl, ?_, ?_⟩
  · intro k s
    unfold stringifyVal
    split
    · rfl
    · rfl
  · intro l l' h nd
    have e : ∀ a, l.lookup a = l'.lookup a := fun a => lookup_perm a h nd
    simp only [build_arg_string, e]

/-- Witness for claim C7's theorem: order-stability applied to a
concrete two-option permutation. -/
theorem option_serialization_witness :
    build_arg_string [("G", Value.scalar "o.nc"), ("I", Value.scalar "1/1")]
      = build_arg_string [("I", Value.scalar "1/1"), ("G", Value.scalar "o.nc")] :=
  option_serialization.2.2.2 _ _ (List.Perm.swap _ _ _) (by decide)

/-- Claim C8: two calls with identical table and options (no
`outgrid`), a deterministic external module whose grid does not depend
on the output-file token, but possibly different generated temp names
and different preexisting filesystems, return equal results — the
wrapper introduces no nondeterminism. -/
theorem deterministic_across_calls (module : Module) (t1 t2 : String)
    (table : Table) (kind : DataKind) (kwargs : OptionSet) (fs1 fs2 : FS)
    (hkeys : kwargs.all (fun kv => kv.1 ∈ allowList) = true)
    (hkind : data_kind table = .ok kind)
    (hout : kwargs.lookup "outgrid" = none)
    (hmodG : ∀ v w : String,
      module table (decoratedOptions kwargs ++ [("G", Value.scalar v)])
        = module table (decoratedOptions kwargs ++ [("G", Value.scalar w)])) :
    (sphinterpolate module t1 table kwargs fs1).result
      = (sphinterpolate module t2 table kwargs fs2).result := by
  have hf1 := finalOptions_no_outgrid t1 kwargs hkeys hout
  have hf2 := finalOptions_no_outgrid t2 kwargs hkeys hout
  cases hm : module table (finalOptions t1 kwargs) with
  | none =>
    have hm2 : module table (finalOptions t2 kwargs) = none := by
      rw [hf2, hmodG t2 t1, ← hf1]
      exact hm
    rw [run_module_failure module t1 table kwargs fs1 kind hkeys hkind hm,
        run_module_failure module t2 table kwargs fs2 kind hkeys hkind hm2]
  | some g =>
    have hm2 : module table (finalOptions t2 kwargs) = some g := by
      rw [hf2, hmodG t2 t1, ← hf1]
      exact hm
    rw [run_no_outgrid module t1 table kind kwargs fs1 g hkeys hkind hout hm,
        run_no_outgrid module t2 table kind kwargs fs2 g hkeys hkind hout hm2]

/-- Witness for claim C8's theorem: two concrete calls with different
temp names and different starting filesystems agree. -/
theorem deterministic_across_calls_witness :
    (sphinterpolate sampleModule "a.nc" sampleTable [] []).result
      = (sphinterpolate sampleModule "b.nc" sampleTable []
          [("x.nc", FileContent.empty)]).result :=
  deterministic_across_calls sampleModule "a.nc" "b.nc" sampleTable .vectors
    [] [] [("x.nc", FileContent.empty)] (by decide) rfl rfl (fun _ _ => rfl)

/-- Claim C9: the input table's data kind is classified exactly once
at entry (one classification event in the trace), and the computed
kind selects the ingestion path (the matching virtual-input open event
appears in the trace). -/
theorem classified_once_selects_path (module : Module) (tmpname : String)
    (table : Table) (kwargs : OptionSet) (fs : FS) (kind : DataKind)
    (hkeys : kwargs.all (fun kv => kv.1 ∈ allowList) = true)
    (hkind : data_kind table = .ok kind) :
    (sphinterpolate module tmpname table kwargs fs).trace.count Event.classify = 1 ∧
    vfOpenEvent kind ∈ (sphinterpolate module tmpname table kwargs fs).trace := by
  rw [run_trace module tmpname table kwargs fs kind hkeys hkind]
  cases kind <;> decide

/-- Witness for claim C9's theorem at a concrete tabular call. -/
theorem classified_once_selects_path_witness :
    (sphinterpolate sampleModule "tmp.nc" sampleTable [] []).trace.count
        Event.classify = 1 ∧
    vfOpenEvent DataKind.vectors
      ∈ (sphinterpolate sampleModule "tmp.nc" sampleTable [] []).trace :=
  classified_once_selects_path sampleModule "tmp.nc" sampleTable [] [] .vectors
    (by decide) rfl

/-- Claim C10: the return-type decision compares the output path with
the generated temp name, so a caller-supplied `outgrid` equal to the
temp name yields an in-memory grid (not none) and the file at that
path is deleted on scope exit — the caller receives a grid but no
file. -/
theorem outgrid_collision_returns_grid (module : Module) (tmpname : String)
    (rows : List (Int × Int × Int)) (kwargs : OptionSet) (fs : FS) (g : Grid)
    (hkeys : kwargs.all (fun kv => kv.1 ∈ allowList) = true)
    (hout : kwargs.lookup "outgrid" = some (Value.scalar tmpname))
    (hmod : module (Table.vectors rows) (finalOptions tmpname kwargs) = some g) :
    (sphinterpolate module tmpname (Table.vectors rows) kwargs fs).result
      = .ok (some g) ∧
    fileExists tmpname
      (sphinterpolate module tmpname (Table.vectors rows) kwargs fs).fs = false := by
  rw [run_with_outgrid module tmpname (Table.vectors rows) kwargs fs g .vectors
    tmpname hkeys rfl hout hmod]
  exact ⟨by simp, fileExists_deleteFile _ _⟩

/-- Witness for claim C10's theorem at a concrete call whose `outgrid`
equals the generated temp name. -/
theorem outgrid_collision_returns_grid_witness :
    (sphinterpolate sampleModule "tmp.nc" (Table.vectors [(0, 0, 1)])
        [("outgrid", Value.scalar "tmp.nc")] []).result = .ok (some sampleGrid) ∧
    fileExists "tmp.nc"
      (sphinterpolate sampleModule "tmp.nc" (Table.vectors [(0, 0, 1)])
        [("outgrid", Value.scalar "tmp.nc")] []).fs = false :=
  outgrid_collision_returns_grid sampleModule "tmp.nc" [(0, 0, 1)]
    [("outgrid", Value.scalar "tmp.nc")] [] sampleGrid (by decide) rfl rfl

end Sphinterpolate
